import Mathlib

/-!
# Verification of the hosting agent pipeline

Shallow embedding of the grocery-planning agent backend
(`backend/app/services/quantity_engine.py`, `backend/app/models/shopping.py`,
`backend/app/agent/{state,steps,runner}.py`) and proofs about it.

Conventions:
* Python `float` quantities are modelled as `ℚ`; `round(x, 2)` is modelled by
  `round2` (round-half-to-even at two decimals, as CPython does).
* Python `dict` values keyed by enum members are modelled as total functions;
  insertion-ordered dicts built incrementally are modelled as association
  lists.
* Fallible calls to external collaborators (the Gemini AI service, Google
  services) are modelled as oracle parameters returning `Except String α`.
-/

namespace Hosting

/-! ## Enums from `app/models/shopping.py` -/

/-- `GroceryCategory(str, Enum)` from `app/models/shopping.py`. -/
inductive GroceryCategory
  | proteins | produce | dairy | pantry | bakery
  | beverages | frozen | condiments | other
  deriving DecidableEq, Repr

/-- The `.value` string of each `GroceryCategory` member. -/
def GroceryCategory.value : GroceryCategory → String
  | .proteins => "proteins"
  | .produce => "produce"
  | .dairy => "dairy"
  | .pantry => "pantry"
  | .bakery => "bakery"
  | .beverages => "beverages"
  | .frozen => "frozen"
  | .condiments => "condiments"
  | .other => "other"

/-- `DishCategory(str, Enum)` from `app/models/shopping.py`. -/
inductive DishCategory
  | main_protein | secondary_protein | starch_side | vegetable_side
  | salad | bread | dessert | passed_appetizer
  | beverage_alcoholic | beverage_nonalcoholic
  deriving DecidableEq, Repr

/-- `QuantityUnit(str, Enum)` from `app/models/shopping.py`. -/
inductive QuantityUnit
  | oz | lbs | grams | kg
  | tsp | tbsp | cups | fl_oz | pints | quarts | gallons | liters | ml
  | count | dozen
  | bunch | head | cloves | slices | cans | packages
  deriving DecidableEq, Repr

/-- The `.value` string of each `QuantityUnit` member. -/
def QuantityUnit.value : QuantityUnit → String
  | .oz => "oz"
  | .lbs => "lbs"
  | .grams => "grams"
  | .kg => "kg"
  | .tsp => "tsp"
  | .tbsp => "tbsp"
  | .cups => "cups"
  | .fl_oz => "fl oz"
  | .pints => "pints"
  | .quarts => "quarts"
  | .gallons => "gallons"
  | .liters => "liters"
  | .ml => "ml"
  | .count => "count"
  | .dozen => "dozen"
  | .bunch => "bunch"
  | .head => "head"
  | .cloves => "cloves"
  | .slices => "slices"
  | .cans => "cans"
  | .packages => "packages"

/-! ## Rounding

CPython's `round(x, 2)` rounds half to even at the second decimal.  Floats are
modelled as exact rationals, so `round2` is round-half-even on `x * 100`. -/

/-- Round a rational to the nearest integer, ties to even (CPython `round`). -/
def roundHalfEven (q : ℚ) : ℤ :=
  let f : ℤ := ⌊q⌋
  let frac : ℚ := q - f
  if frac < 1/2 then f
  else if 1/2 < frac then f + 1
  else if f % 2 = 0 then f else f + 1

/-- Python `round(x, 2)`: round half to even at two decimal places. -/
def round2 (q : ℚ) : ℚ := (roundHalfEven (q * 100) : ℚ) / 100

/-! ## String helpers

Python's `str.strip()` and `str.lower()` are modelled structurally on the
character list of the string. -/

/-- Drop leading whitespace characters. -/
def stripLeading : List Char → List Char
  | [] => []
  | c :: cs => if c.isWhitespace then stripLeading cs else c :: cs

/-- Python `str.strip()`: remove leading and trailing whitespace. -/
def pyStrip (s : String) : String :=
  ⟨(stripLeading ((stripLeading s.data).reverse)).reverse⟩

/-- Python `str.lower()` (ASCII letters). -/
def pyLower (s : String) : String :=
  ⟨s.data.map Char.toLower⟩

/-! ## Records from `app/models/shopping.py` -/

/-- `RecipeIngredient` (pydantic model). -/
structure RecipeIngredient where
  name : String
  quantity : ℚ
  unit : QuantityUnit
  grocery_category : GroceryCategory
  notes : Option String := none
  deriving DecidableEq, Repr

/-- `DishServingSpec` (pydantic model). -/
structure DishServingSpec where
  dish_name : String
  dish_category : DishCategory
  adult_servings : ℚ
  child_servings : ℚ
  total_servings : ℚ
  deriving DecidableEq, Repr

/-- `DishIngredients` (pydantic model). -/
structure DishIngredients where
  dish_name : String
  serving_spec : Option DishServingSpec := none
  ingredients : List RecipeIngredient
  deriving DecidableEq, Repr

/-- `AggregatedIngredient` (pydantic model). -/
structure AggregatedIngredient where
  name : String
  total_quantity : ℚ
  unit : QuantityUnit
  grocery_category : GroceryCategory
  appears_in : List String
  deriving DecidableEq, Repr

/-- `ShoppingList` (pydantic model).  The Python `grouped` dict (insertion
ordered, keyed by `GroceryCategory.value` strings) is modelled as an
association list. -/
structure ShoppingList where
  meal_plan : List String
  adult_count : ℤ
  child_count : ℤ
  total_guests : ℤ
  items : List AggregatedIngredient
  grouped : List (String × List AggregatedIngredient) := []
  deriving DecidableEq, Repr

/-- One step of `ShoppingList.build_grouped`'s loop body:
`result.setdefault(key, []).append(item)` on an insertion-ordered dict. -/
def setdefaultAppend (g : List (String × List AggregatedIngredient)) (k : String)
    (v : AggregatedIngredient) : List (String × List AggregatedIngredient) :=
  match g with
  | [] => [(k, [v])]
  | (k', vs) :: rest =>
    if k' = k then (k', vs ++ [v]) :: rest
    else (k', vs) :: setdefaultAppend rest k v

/-- `ShoppingList.build_grouped`: rebuild `grouped` from `items`
(the Python method mutates `self.grouped`; here the updated list is returned). -/
def ShoppingList.build_grouped (sl : ShoppingList) : ShoppingList :=
  { sl with grouped :=
      sl.items.foldl (fun g item => setdefaultAppend g item.grocery_category.value item) [] }

/-! ## `app/services/quantity_engine.py` -/

/-- `ADULT_SERVINGS_PER_PERSON` lookup table (dict with every `DishCategory`
as key, modelled as a total function). -/
def ADULT_SERVINGS_PER_PERSON : DishCategory → ℚ
  | .main_protein => 1
  | .secondary_protein => 1/2
  | .starch_side => 1
  | .vegetable_side => 1
  | .salad => 1
  | .bread => 1
  | .dessert => 1
  | .passed_appetizer => 2
  | .beverage_alcoholic => 3/2
  | .beverage_nonalcoholic => 3/2

/-- `CHILD_SERVINGS_PER_PERSON` lookup table. -/
def CHILD_SERVINGS_PER_PERSON : DishCategory → ℚ
  | .main_protein => 3/4
  | .secondary_protein => 1/2
  | .starch_side => 3/4
  | .vegetable_side => 1/2
  | .salad => 1/2
  | .bread => 1
  | .dessert => 1
  | .passed_appetizer => 1
  | .beverage_alcoholic => 0
  | .beverage_nonalcoholic => 1

/-- `calculate_dish_serving_spec` from `app/services/quantity_engine.py`. -/
def calculate_dish_serving_spec (dish_name : String) (dish_category : DishCategory)
    (adult_count : ℕ) (child_count : ℕ) : DishServingSpec :=
  let adult_multiplier := ADULT_SERVINGS_PER_PERSON dish_category
  let child_multiplier := CHILD_SERVINGS_PER_PERSON dish_category
  let adult_servings := round2 (adult_count * adult_multiplier)
  let child_servings := round2 (child_count * child_multiplier)
  { dish_name := dish_name
    dish_category := dish_category
    adult_servings := adult_servings
    child_servings := child_servings
    total_servings := round2 (adult_servings + child_servings) }

/-- `calculate_all_serving_specs` from `app/services/quantity_engine.py`:
`dish_categories.get(dish)` is modelled by association-list lookup. -/
def calculate_all_serving_specs (meal_plan : List String)
    (dish_categories : List (String × DishCategory))
    (adult_count : ℕ) (child_count : ℕ) : List DishServingSpec :=
  meal_plan.map fun dish =>
    let category := (dish_categories.lookup dish).getD DishCategory.starch_side
    calculate_dish_serving_spec dish category adult_count child_count


/-! ## Recipes (`app/models/event.py`) and recipe scaling (`app/agent/steps.py`) -/

/-- `PreparationMethod(str, Enum)` from `app/models/event.py`. -/
inductive PreparationMethod
  | store_bought | homemade
  deriving DecidableEq, Repr

/-- `Recipe` from `app/models/event.py`, restricted to the fields the agent
pipeline reads (`name`, `ingredients`, `servings`, `preparation_method`).
`ingredients` is a list of `RecipeIngredient` dicts in Python; the dicts are
modelled directly as `RecipeIngredient` values. -/
structure Recipe where
  name : String
  ingredients : List RecipeIngredient := []
  preparation_method : PreparationMethod := PreparationMethod.homemade
  servings : ℕ := 4
  deriving DecidableEq, Repr

/-- `_scale_recipe_in_python` from `app/agent/steps.py`.
`base_servings = recipe.servings or 4` maps `0` to `4` (Python falsiness). -/
def _scale_recipe_in_python (recipe : Recipe) (spec : DishServingSpec) : DishIngredients :=
  let base_servings : ℕ := if recipe.servings = 0 then 4 else recipe.servings
  let factor : ℚ := if 0 < base_servings then spec.total_servings / base_servings else 1
  { dish_name := spec.dish_name
    serving_spec := some spec
    ingredients := recipe.ingredients.map fun ing =>
      { ing with quantity := round2 (ing.quantity * factor) } }



/-! ## Agent state (`app/agent/state.py`, `app/models/event.py`)

`state.py`'s declared field list is stale: `steps.py`, `runner.py`, the
repository's tests and `main.py` all read and write `formatted_recipes_output`,
`google_tasks` (a `GoogleTasksResult`) and the stage constant
`GENERATING_RECIPES`.  The embedding includes these fields as used. -/

/-- `OutputFormat(str, Enum)` from `app/models/event.py`. -/
inductive OutputFormat
  | google_sheet | google_tasks | in_chat
  deriving DecidableEq, Repr

/-! `AgentStage` string constants from `app/agent/state.py` (plus
`GENERATING_RECIPES`, referenced by `steps.py`). -/
namespace AgentStage

def IDLE : String := "idle"

def CALCULATING_QUANTITIES : String := "calculating_quantities"

def GETTING_INGREDIENTS : String := "getting_ingredients"

def AGGREGATING : String := "aggregating"

def AWAITING_REVIEW : String := "awaiting_review"

def APPLYING_CORRECTIONS : String := "applying_corrections"

def GENERATING_RECIPES : String := "generating_recipes"

def DELIVERING : String := "delivering"

def COMPLETE : String := "complete"

def ERROR : String := "error"

end AgentStage

/-- `MealPlan` from `app/models/event.py`, restricted to `recipes`. -/
structure MealPlan where
  recipes : List Recipe := []
  deriving DecidableEq, Repr

/-- `EventPlanningData` from `app/models/event.py`, restricted to the fields
the agent pipeline reads.  Dietary restrictions are kept opaque as strings. -/
structure EventPlanningData where
  event_date : Option String := none
  adult_count : Option ℕ := none
  child_count : Option ℕ := none
  total_guests : Option ℕ := none
  dietary_restrictions : List String := []
  meal_plan : MealPlan := {}
  deriving DecidableEq, Repr

/-- `GoogleTasksResult` as constructed in `steps.create_google_tasks`. -/
structure GoogleTasksResult where
  url : String
  list_title : String
  deriving DecidableEq, Repr

/-- `AgentState` from `app/agent/state.py` (with the fields used by
`steps.py`/`runner.py`, see the section comment). -/
structure AgentState where
  event_data : EventPlanningData
  output_formats : List OutputFormat
  stage : String := AgentStage.IDLE
  error : Option String := none
  serving_specs : List DishServingSpec := []
  dish_ingredients : List DishIngredients := []
  shopping_list : Option ShoppingList := none
  user_corrections : Option String := none
  google_sheet_url : Option String := none
  google_tasks_url : Option String := none
  google_tasks : Option GoogleTasksResult := none
  formatted_chat_output : Option String := none
  formatted_recipes_output : Option String := none
  deriving DecidableEq, Repr

/-! ## Step functions (`app/agent/steps.py`)

External collaborators (`ai_service`, `tasks_service`) are oracle
parameters returning `Except String α`; a returned `Except.error` models the
Python call raising. -/

/-- `NEVER_PURCHASE` from `app/agent/steps.py`. -/
def NEVER_PURCHASE : List String :=
  ["water", "tap water", "cold water", "hot water", "boiling water", "ice water"]

/-- Step 1, `calculate_quantities`: categorise dishes via the AI oracle, then
apply the lookup table.  The oracle models `ai_service.categorise_dishes`. -/
def calculate_quantities
    (categorise_dishes : List String → Except String (List (String × DishCategory)))
    (st : AgentState) : Except String AgentState :=
  let st := { st with stage := AgentStage.CALCULATING_QUANTITIES }
  let dish_names := st.event_data.meal_plan.recipes.map Recipe.name
  (categorise_dishes dish_names).map fun dish_categories =>
    let specs := calculate_all_serving_specs dish_names dish_categories
      (st.event_data.adult_count.getD 0) (st.event_data.child_count.getD 0)
    { st with serving_specs := specs }

/-- The `recipe_map` dict of `get_all_dish_ingredients`
(`{r.name.lower(): r for r in recipes}`; later entries win). -/
def recipeMapLookup (recipes : List Recipe) (key : String) : Option Recipe :=
  recipes.reverse.find? fun r => pyLower r.name = key

/-- `_recipe_for` inside `get_all_dish_ingredients`. -/
def _recipe_for (recipes : List Recipe) (dish_name : String) : Option Recipe :=
  match recipeMapLookup recipes (pyLower dish_name) with
  | some r => if r.ingredients.isEmpty then none else some r
  | none => none

/-- `_is_store_bought` inside `get_all_dish_ingredients`. -/
def _is_store_bought (recipes : List Recipe) (dish_name : String) : Bool :=
  match recipeMapLookup recipes (pyLower dish_name) with
  | some r => r.preparation_method = PreparationMethod.store_bought
  | none => false

/-- `BEVERAGE_CATEGORIES` inside `get_all_dish_ingredients`. -/
def BEVERAGE_CATEGORIES : List DishCategory :=
  [DishCategory.beverage_alcoholic, DishCategory.beverage_nonalcoholic]

/-- The per-spec routing of `get_all_dish_ingredients`: store-bought dishes
get a single count line, non-beverage dishes with a base recipe are scaled in
pure arithmetic, everything else (`Sum.inr`) is delegated to the AI oracle. -/
def routeSpec (recipes : List Recipe) (spec : DishServingSpec) :
    Sum DishIngredients DishServingSpec :=
  if _is_store_bought recipes spec.dish_name then
    Sum.inl
      { dish_name := spec.dish_name
        serving_spec := some spec
        ingredients := [{ name := spec.dish_name, quantity := 1
                          unit := QuantityUnit.count
                          grocery_category := GroceryCategory.other }] }
  else if spec.dish_category ∉ BEVERAGE_CATEGORIES then
    match _recipe_for recipes spec.dish_name with
    | some recipe => Sum.inl (_scale_recipe_in_python recipe spec)
    | none => Sum.inr spec
  else Sum.inr spec

/-- `Except.ok` projection used to keep the successes of a fan-out
(`asyncio.gather(..., return_exceptions=True)` followed by dropping
exceptions). -/
def okValue? {ε α : Type} (r : Except ε α) : Option α :=
  match r with
  | Except.ok a => some a
  | Except.error _ => none

/-- `true` exactly on `Except.ok` results. -/
def exceptIsOk {ε α : Type} (r : Except ε α) : Bool :=
  match r with
  | Except.ok _ => true
  | Except.error _ => false

/-- Step 2, `get_all_dish_ingredients`: route every spec, dispatch the
delegated ones to the AI oracle concurrently, catch per-dish failures
individually and drop the failed dishes.  The oracle models
`ai_service.get_dish_ingredients(spec, recipe=..., dietary_restrictions=...)`. -/
def get_all_dish_ingredients
    (get_dish_ingredients :
      DishServingSpec → Option Recipe → List String → Except String DishIngredients)
    (st : AgentState) : AgentState :=
  let st := { st with stage := AgentStage.GETTING_INGREDIENTS }
  let recipes := st.event_data.meal_plan.recipes
  let routed := st.serving_specs.map (routeSpec recipes)
  let local_ingredients := routed.filterMap fun r =>
    match r with
    | Sum.inl d => some d
    | Sum.inr _ => none
  let specs_for_gemini := routed.filterMap fun r =>
    match r with
    | Sum.inl _ => none
    | Sum.inr s => some s
  let results := specs_for_gemini.map fun spec =>
    get_dish_ingredients spec (_recipe_for recipes spec.dish_name)
      st.event_data.dietary_restrictions
  { st with dish_ingredients := local_ingredients ++ results.filterMap okValue? }

/-- Step 3, `aggregate_ingredients`: delegate the fuzzy merge to the AI
oracle, filter never-purchase items, rebuild the group index.  An oracle
failure propagates (caught only by the orchestrator's top-level handler). -/
def aggregate_ingredients
    (aggregate : List DishIngredients → Except String ShoppingList)
    (st : AgentState) : Except String AgentState :=
  let st := { st with stage := AgentStage.AGGREGATING }
  (aggregate st.dish_ingredients).map fun sl =>
    let kept := sl.items.filter (fun item => !(NEVER_PURCHASE.contains (pyStrip (pyLower item.name))))
    let sl := { sl with items := kept }
    { st with shopping_list := some sl.build_grouped }

/-- Step 4, `apply_corrections`: no-op when `user_corrections` is `None`,
empty or whitespace; otherwise the list is replaced wholesale by the oracle's
response and the group index rebuilt.  The oracle models
`ai_service.apply_shopping_list_corrections`. -/
def apply_corrections
    (apply_shopping_list_corrections :
      Option ShoppingList → String → Except String ShoppingList)
    (st : AgentState) : Except String AgentState :=
  let st := { st with stage := AgentStage.APPLYING_CORRECTIONS }
  match st.user_corrections with
  | none => Except.ok st
  | some c =>
    if pyStrip c = "" then Except.ok st
    else
      (apply_shopping_list_corrections st.shopping_list c).map fun revised =>
        { st with shopping_list := some revised.build_grouped }

/-- Step 5a, `create_google_sheet`, exactly as declared in `app/agent/steps.py`:
a stub taking only the state and clearing `google_sheet_url`.  (The runner and
the repository's tests call it with a second `sheets_service` argument; see
the delivery-phase model below.) -/
def create_google_sheet (st : AgentState) : AgentState :=
  { st with google_sheet_url := none }

/-- `datetime.date.fromisoformat(raw).strftime("%m-%d-%Y")` with the
`ValueError` fallback to `raw`.  Modelled shape-only: a `YYYY-MM-DD` digit
pattern is reordered, anything else is returned unchanged (Python also range-
checks month and day; no claim depends on that). -/
def formatEventDateMDY (raw : String) : String :=
  match raw.splitOn "-" with
  | [y, m, d] =>
    if y.length = 4 && m.length = 2 && d.length = 2 && y.toList.all Char.isDigit &&
        m.toList.all Char.isDigit && d.toList.all Char.isDigit then
      m ++ "-" ++ d ++ "-" ++ y
    else raw
  | _ => raw

/-- Step 5b, `create_google_tasks`: skip gracefully without a service,
otherwise create the checklist via the service oracle.  `today` stands for
`datetime.date.today().isoformat()`. -/
def create_google_tasks
    (tasks_service : Option (Option ShoppingList → String → Except String Unit))
    (today : String) (st : AgentState) : Except String AgentState :=
  match tasks_service with
  | none => Except.ok { st with google_tasks_url := none }
  | some create_shopping_list =>
    let raw := st.event_data.event_date.getD today
    let event_date := formatEventDateMDY raw
    let title := "Dinner Party Shopping - " ++ event_date
    (create_shopping_list st.shopping_list title).map fun _ =>
      { st with google_tasks := some { url := "https://tasks.google.com", list_title := title } }

/-- `eligible` filter of Step 6, `generate_recipes`: homemade, non-beverage
dishes with a serving spec and a known recipe. -/
def eligibleDish (recipes : List Recipe) (d : DishIngredients) : Bool :=
  d.serving_spec.isSome &&
    (match d.serving_spec with
     | some sp => !(BEVERAGE_CATEGORIES.contains sp.dish_category)
     | none => false) &&
    (match recipeMapLookup recipes (pyLower d.dish_name) with
     | some r => !(r.preparation_method = PreparationMethod.store_bought)
     | none => false)

/-- One `- {ceil qty} {unit} {name}` ingredient line of Step 6's markdown. -/
def recipeIngredientLine (ing : RecipeIngredient) : String :=
  "- " ++ toString (Int.ceil ing.quantity) ++ " " ++ ing.unit.value ++ " " ++ ing.name

/-- The numbered instruction lines of Step 6's markdown. -/
def instructionLines (instructions : List String) : List String :=
  instructions.enum.map (fun p => toString (p.1 + 1) ++ ". " ++ p.2)

/-- The markdown block Step 6 emits per eligible dish.  (Python renders the
serving count with float formatting; `toString` on `ℚ` is the analogue.) -/
def recipeBlock (instructions_map : List (String × List String))
    (d : DishIngredients) : List String :=
  let instructions := (instructions_map.lookup d.dish_name).getD []
  let total : String :=
    match d.serving_spec with
    | some sp => toString sp.total_servings
    | none => "?"
  ["---\n", "### " ++ d.dish_name, "*Serves " ++ total ++ "*\n", "**Ingredients**"] ++
    d.ingredients.map recipeIngredientLine ++ [""] ++
    (if instructions.isEmpty then [] else "**Instructions**" :: instructionLines instructions) ++
    [""]

/-- Step 6, `generate_recipes`: format cooking instructions for the eligible
dishes.  The oracle models `ai_service.generate_recipe_instructions_batch`;
its failure makes the whole step fail (caught by the delivery fan-out). -/
def generate_recipes
    (generate_recipe_instructions_batch :
      List (String × List RecipeIngredient × ℚ) → Except String (List (String × List String)))
    (st : AgentState) : Except String AgentState :=
  let st := { st with stage := AgentStage.GENERATING_RECIPES }
  let recipes := st.event_data.meal_plan.recipes
  let eligible := st.dish_ingredients.filter (eligibleDish recipes)
  if eligible.isEmpty then Except.ok { st with formatted_recipes_output := none }
  else
    let dishes_input := eligible.map fun d =>
      (d.dish_name, d.ingredients,
        match d.serving_spec with
        | some sp => sp.total_servings
        | none => 0)
    (generate_recipe_instructions_batch dishes_input).map fun instructions_map =>
      let lines := "## Recipes\n" :: (eligible.map (recipeBlock instructions_map)).flatten
      { st with formatted_recipes_output := some (String.intercalate "\n" lines) }

/-- One title-cased character: Python `str.title()` uppercases a letter that
follows a non-letter and lowercases the rest. -/
def pyTitleChar (prevCased : Bool) (c : Char) : Char :=
  if !c.isAlpha then c else if prevCased then c.toLower else c.toUpper

/-- Recursion for `pyTitle`. -/
def pyTitleGo : Bool → List Char → List Char
  | _, [] => []
  | prev, c :: cs => pyTitleChar prev c :: pyTitleGo c.isAlpha cs

/-- Python `str.title()` (ASCII letters). -/
def pyTitle (s : String) : String :=
  ⟨pyTitleGo false s.data⟩

/-- The `**{category.replace('_', ' ').title()}**` header line of Step 5c. -/
def categoryHeaderLine (category : String) : String :=
  "**" ++ pyTitle (category.replace "_" " ") ++ "**"

/-- The `- {name}: {qty} {unit}` line of Step 5c; the displayed quantity is
`math.ceil(item.total_quantity)`. -/
def chatItemLine (item : AggregatedIngredient) : String :=
  "- " ++ item.name ++ ": " ++ toString (Int.ceil item.total_quantity) ++ " " ++ item.unit.value

/-- The list of markdown lines Step 5c builds before joining with `"\n"`. -/
def chatLines (sl : ShoppingList) : List String :=
  "## Shopping List\n" ::
    (sl.grouped.map fun p => categoryHeaderLine p.1 :: (p.2.map chatItemLine ++ [""])).flatten

/-- Step 5c, `format_chat_output`: pure formatting of the shopping list,
with a fixed message when no list is present. -/
def format_chat_output (st : AgentState) : AgentState :=
  let st := { st with stage := AgentStage.DELIVERING }
  match st.shopping_list with
  | none => { st with formatted_chat_output := some "No shopping list available." }
  | some sl =>
    { st with formatted_chat_output := some (String.intercalate "\n" (chatLines sl)) }

/-! ## Orchestrator (`app/agent/runner.py`)

The WebSocket transport is modelled by a trace of outbound notifications
(payloads beyond the stage are elided) and an inbound script of review
responses.  `_send` never propagates failures in the source, so publishing
always succeeds in the model. -/

/-- An outbound notification sent by the runner. -/
inductive Msg
  | progress (stage : String)
  | review
  | complete
  | failure
  deriving DecidableEq, Repr

/-- `true` exactly on `agent_review` notifications. -/
def isReviewNotification : Msg → Bool
  | Msg.review => true
  | _ => false

/-- One inbound client response at the review checkpoint:
`{"type": "approve", "excluded_items": [...]}` or a free-text message
(`{"type": "message", "data": ...}` / legacy `{"corrections": ...}`). -/
inductive ReviewMsg
  | approve (excluded_items : List String)
  | message (data : String)
  deriving DecidableEq, Repr

/-- The runner's `approve` branch: case-insensitive removal of excluded item
names, followed by a group-index rebuild. -/
def applyExclusions (excluded : List String) (sl : ShoppingList) : ShoppingList :=
  let excluded_set := excluded.map pyLower
  ShoppingList.build_grouped
    { sl with items := sl.items.filter (fun item => !(excluded_set.contains (pyLower item.name))) }

/-- How the review loop of `run_agent` ends. -/
inductive LoopExit
  | approved (st : AgentState)
  | failed (st : AgentState) (e : String)
  | blocked (st : AgentState)
  deriving Repr

/-- The state carried by a review-loop exit. -/
def LoopExit.state : LoopExit → AgentState
  | LoopExit.approved st => st
  | LoopExit.failed st _ => st
  | LoopExit.blocked st => st

/-- The review loop of `run_agent` (steps 4-6): publish the list, receive one
response, exit on approval (explicit or blank), otherwise apply corrections
and loop.  `LoopExit.blocked` models the loop still awaiting a response after
the script is exhausted; `LoopExit.failed` models `apply_corrections` raising
to the top-level handler. -/
def reviewLoop
    (apply_shopping_list_corrections :
      Option ShoppingList → String → Except String ShoppingList)
    (st : AgentState) : List ReviewMsg → LoopExit × List Msg
  | [] => (LoopExit.blocked { st with stage := AgentStage.AWAITING_REVIEW }, [Msg.review])
  | ReviewMsg.approve excluded :: _ =>
    let stw := { st with stage := AgentStage.AWAITING_REVIEW }
    let sta :=
      match stw.shopping_list with
      | some sl =>
        if excluded.isEmpty then stw
        else { stw with shopping_list := some (applyExclusions excluded sl) }
      | none => stw
    (LoopExit.approved sta, [Msg.review])
  | ReviewMsg.message data :: rest =>
    let stw := { st with stage := AgentStage.AWAITING_REVIEW }
    let corrections := pyStrip data
    if corrections = "" then (LoopExit.approved stw, [Msg.review])
    else
      let stc := { stw with user_corrections := some corrections }
      match apply_corrections apply_shopping_list_corrections stc with
      | Except.error e =>
        (LoopExit.failed { stc with stage := AgentStage.APPLYING_CORRECTIONS } e,
          [Msg.review, Msg.progress AgentStage.APPLYING_CORRECTIONS])
      | Except.ok st2 =>
        let next := reviewLoop apply_shopping_list_corrections st2 rest
        (next.1, Msg.review :: Msg.progress AgentStage.APPLYING_CORRECTIONS :: next.2)

/-- The external AI collaborator's calls, as consumed by the runner. -/
structure AIOracles where
  categorise_dishes : List String → Except String (List (String × DishCategory))
  get_dish_ingredients :
    DishServingSpec → Option Recipe → List String → Except String DishIngredients
  aggregate_ingredients : List DishIngredients → Except String ShoppingList
  apply_shopping_list_corrections :
    Option ShoppingList → String → Except String ShoppingList
  generate_recipe_instructions_batch :
    List (String × List RecipeIngredient × ℚ) → Except String (List (String × List String))

/-- The runner's back-fill of guest counts after aggregation. -/
def backfillGuestCounts (event_data : EventPlanningData) (st : AgentState) : AgentState :=
  match st.shopping_list with
  | some sl =>
    let sl2 := { sl with
      adult_count := ((event_data.adult_count.getD 0 : ℕ) : ℤ)
      child_count := ((event_data.child_count.getD 0 : ℕ) : ℤ)
      total_guests := ((event_data.total_guests.getD 0 : ℕ) : ℤ) }
    { st with shopping_list := some sl2 }
  | none => st

/-- `asyncio.gather(*delivery_tasks, return_exceptions=True)` followed by the
merge loop that skips exceptions.  The tasks all mutate the one shared state
object and set disjoint output fields, so running them over the state in
dispatch order reproduces the merged result; a failed task contributes
nothing. -/
def runDeliveryTasks (tasks : List (AgentState → Except String AgentState))
    (st : AgentState) : AgentState :=
  tasks.foldl
    (fun s t =>
      match t s with
      | Except.ok s2 => s2
      | Except.error _ => s)
    st

/-- Step 7 of `run_agent`, the delivery fan-out.  When a Google Sheet is
requested the runner evaluates `create_google_sheet(state, sheets_service)`,
but `steps.create_google_sheet` takes a single parameter, so Python raises
`TypeError` while building the task list — before the gather isolation — and
the error propagates to the top-level handler. -/
def deliveryPhase (oracles : AIOracles)
    (tasks_service : Option (Option ShoppingList → String → Except String Unit))
    (today : String) (output_formats : List OutputFormat)
    (st : AgentState) : Except String AgentState :=
  if output_formats.contains OutputFormat.google_sheet then
    Except.error "create_google_sheet() takes 1 positional argument but 2 were given"
  else
    let tasks : List (AgentState → Except String AgentState) :=
      [fun s => Except.ok (format_chat_output s),
        fun s => generate_recipes oracles.generate_recipe_instructions_batch s] ++
        (if output_formats.contains OutputFormat.google_tasks then
          [fun s => create_google_tasks tasks_service today s]
        else [])
    Except.ok (runDeliveryTasks tasks st)

/-- The runner's top-level failure boundary: record the error and publish the
failure notification. -/
def errorFinish (st : AgentState) (e : String) (sent : List Msg) : AgentState × List Msg :=
  ({ st with stage := AgentStage.ERROR, error := some e }, sent ++ [Msg.failure])

/-- Steps 7-8 of `run_agent`: publish `DELIVERING`, fan out, mark complete. -/
def deliverFinish (oracles : AIOracles)
    (tasks_service : Option (Option ShoppingList → String → Except String Unit))
    (today : String) (output_formats : List OutputFormat)
    (st : AgentState) (sent : List Msg) : AgentState × List Msg :=
  let sent := sent ++ [Msg.progress AgentStage.DELIVERING]
  match deliveryPhase oracles tasks_service today output_formats st with
  | Except.error e => errorFinish st e sent
  | Except.ok st2 => ({ st2 with stage := AgentStage.COMPLETE }, sent ++ [Msg.complete])

/-- `run_agent` from `app/agent/runner.py`.  Returns the final state and the
notification trace; `none` models the run still blocked waiting for a review
response after the script is exhausted.  Skip detection mirrors
`if existing_state and existing_state.shopping_list:` — a present
`ShoppingList` object is truthy regardless of its contents. -/
def run_agent (oracles : AIOracles) (event_data : EventPlanningData)
    (output_formats : List OutputFormat) (existing_state : Option AgentState)
    (tasks_service : Option (Option ShoppingList → String → Except String Unit))
    (today : String) (script : List ReviewMsg) : Option (AgentState × List Msg) :=
  let fresh : AgentState := { event_data := event_data, output_formats := output_formats }
  let start : AgentState × Bool :=
    match existing_state with
    | some es =>
      if es.shopping_list.isSome then ({ es with output_formats := output_formats }, true)
      else (fresh, false)
    | none => (fresh, false)
  let st := start.1
  if start.2 then
    some (deliverFinish oracles tasks_service today output_formats st [])
  else
    let sent := [Msg.progress AgentStage.CALCULATING_QUANTITIES]
    match calculate_quantities oracles.categorise_dishes st with
    | Except.error e => some (errorFinish st e sent)
    | Except.ok st1 =>
      let sent := sent ++ [Msg.progress AgentStage.GETTING_INGREDIENTS]
      let st2 := get_all_dish_ingredients oracles.get_dish_ingredients st1
      let sent := sent ++ [Msg.progress AgentStage.AGGREGATING]
      match aggregate_ingredients oracles.aggregate_ingredients st2 with
      | Except.error e => some (errorFinish st2 e sent)
      | Except.ok st3 =>
        let st4 := backfillGuestCounts event_data st3
        match reviewLoop oracles.apply_shopping_list_corrections st4 script with
        | (LoopExit.blocked _, _) => none
        | (LoopExit.failed stf e, msgs) => some (errorFinish stf e (sent ++ msgs))
        | (LoopExit.approved sta, msgs) =>
          some (deliverFinish oracles tasks_service today output_formats sta (sent ++ msgs))

/-- A fixed oracle bundle used to instantiate concrete runs. -/
def trivialOracles : AIOracles where
  categorise_dishes := fun _ => Except.ok []
  get_dish_ingredients := fun _ _ _ => Except.error "service unavailable"
  aggregate_ingredients := fun _ => Except.error "service unavailable"
  apply_shopping_list_corrections := fun sl _ =>
    match sl with
    | some l => Except.ok l
    | none => Except.error "no list"
  generate_recipe_instructions_batch := fun _ => Except.ok []


theorem roundHalfEven_intCast (n : ℤ) : roundHalfEven (n : ℚ) = n := by
  unfold roundHalfEven
  simp

/-- `round2` is the identity on rationals that are integer multiples of 1/100. -/
theorem round2_eq_self {q : ℚ} (n : ℤ) (h : q * 100 = (n : ℚ)) : round2 q = q := by
  unfold round2
  rw [h, roundHalfEven_intCast, ← h]
  field_simp

/-- Every adult multiplier in the table times 100 is an integer. -/
theorem adult_mul100_int (cat : DishCategory) :
    ∃ k : ℤ, ADULT_SERVINGS_PER_PERSON cat * 100 = k := by
  cases cat
  all_goals unfold ADULT_SERVINGS_PER_PERSON
  exacts [⟨100, by norm_num⟩, ⟨50, by norm_num⟩, ⟨100, by norm_num⟩, ⟨100, by norm_num⟩,
    ⟨100, by norm_num⟩, ⟨100, by norm_num⟩, ⟨100, by norm_num⟩, ⟨200, by norm_num⟩,
    ⟨150, by norm_num⟩, ⟨150, by norm_num⟩]

/-- Every child multiplier in the table times 100 is an integer. -/
theorem child_mul100_int (cat : DishCategory) :
    ∃ k : ℤ, CHILD_SERVINGS_PER_PERSON cat * 100 = k := by
  cases cat
  all_goals unfold CHILD_SERVINGS_PER_PERSON
  exacts [⟨75, by norm_num⟩, ⟨50, by norm_num⟩, ⟨75, by norm_num⟩, ⟨50, by norm_num⟩,
    ⟨50, by norm_num⟩, ⟨100, by norm_num⟩, ⟨100, by norm_num⟩, ⟨100, by norm_num⟩,
    ⟨0, by norm_num⟩, ⟨100, by norm_num⟩]

/-- In `calculate_dish_serving_spec` all three rounds are exact, so the total
equals the sum of the adult and child servings on the nose. -/
theorem calc_total_eq_sum (name : String) (cat : DishCategory) (a c : ℕ) :
    (calculate_dish_serving_spec name cat a c).total_servings =
      (calculate_dish_serving_spec name cat a c).adult_servings +
      (calculate_dish_serving_spec name cat a c).child_servings := by
  obtain ⟨k₁, hk₁⟩ := adult_mul100_int cat
  obtain ⟨k₂, hk₂⟩ := child_mul100_int cat
  have ha : round2 ((a : ℚ) * ADULT_SERVINGS_PER_PERSON cat) =
      (a : ℚ) * ADULT_SERVINGS_PER_PERSON cat :=
    round2_eq_self ((a : ℤ) * k₁) (by push_cast; rw [← hk₁]; ring)
  have hc : round2 ((c : ℚ) * CHILD_SERVINGS_PER_PERSON cat) =
      (c : ℚ) * CHILD_SERVINGS_PER_PERSON cat :=
    round2_eq_self ((c : ℤ) * k₂) (by push_cast; rw [← hk₂]; ring)
  simp only [calculate_dish_serving_spec, ha, hc]
  exact round2_eq_self ((a : ℤ) * k₁ + (c : ℤ) * k₂)
    (by push_cast; rw [← hk₁, ← hk₂]; ring)

/-- C5 (counterexample): scaling does *not* multiply by exactly
`k = total_servings / base_servings` — the code rounds each product to two
decimals.  A base recipe at 3 servings scaled to 4 servings turns quantity 1
into `1.33`, not `4/3`. -/
theorem C5_scaling_rounds_not_exact :
    ((_scale_recipe_in_python
        { name := "Ribs"
          ingredients := [{ name := "pork", quantity := 1, unit := QuantityUnit.lbs
                            grocery_category := GroceryCategory.proteins }]
          servings := 3 }
        { dish_name := "Ribs", dish_category := DishCategory.main_protein
          adult_servings := 4, child_servings := 0, total_servings := 4 }).ingredients.map
        RecipeIngredient.quantity) = [133/100] ∧
      (133/100 : ℚ) ≠ 1 * ((4 : ℚ) / 3) := by
  constructor
  · have hf : Int.fract ((400 : ℚ)/3) = 1/3 := by
      unfold Int.fract
      norm_num
    norm_num [_scale_recipe_in_python, round2, roundHalfEven, hf]
  · norm_num

/-- C5 (amended): for a dish with a known base recipe with a non-zero serving
count, scaling replaces every ingredient quantity `q` by
`round2 (q * k)` with `k = total_servings / base_servings` (exact
multiplication followed by rounding to two decimals), preserves the number of
ingredients, and leaves the list of ingredient names — hence the set of
names — identical. -/
theorem C5_scaling_multiplies_rounded_preserving_names (recipe : Recipe)
    (spec : DishServingSpec) (h : recipe.servings ≠ 0) :
    (_scale_recipe_in_python recipe spec).ingredients.length =
        recipe.ingredients.length ∧
      (_scale_recipe_in_python recipe spec).ingredients.map RecipeIngredient.name =
        recipe.ingredients.map RecipeIngredient.name ∧
      List.Forall₂
        (fun ing ing2 => ing2.quantity =
          round2 (ing.quantity * (spec.total_servings / (recipe.servings : ℚ))))
        recipe.ingredients (_scale_recipe_in_python recipe spec).ingredients := by
  have hb : (if recipe.servings = 0 then 4 else recipe.servings) = recipe.servings := by
    simp [h]
  have hpos : 0 < recipe.servings := Nat.pos_of_ne_zero h
  refine ⟨?_, ?_, ?_⟩
  · simp [_scale_recipe_in_python]
  · simp [_scale_recipe_in_python]
  · simp only [_scale_recipe_in_python, hb, if_pos hpos]
    rw [List.forall₂_map_right_iff]
    exact List.forall₂_same.mpr fun ing _ => rfl

/-- Witness for C5's amended theorem at a concrete recipe and spec. -/
theorem C5_scaling_multiplies_rounded_preserving_names_witness :
    (3 : ℕ) ≠ 0 ∧
      ((_scale_recipe_in_python
          { name := "Ribs"
            ingredients := [{ name := "pork", quantity := 1, unit := QuantityUnit.lbs
                              grocery_category := GroceryCategory.proteins }]
            servings := 3 }
          { dish_name := "Ribs", dish_category := DishCategory.main_protein
            adult_servings := 4, child_servings := 0,
            total_servings := 4 }).ingredients.length = 1) := by
  refine ⟨by decide, ?_⟩
  have h := C5_scaling_multiplies_rounded_preserving_names
    { name := "Ribs"
      ingredients := [{ name := "pork", quantity := 1, unit := QuantityUnit.lbs
                        grocery_category := GroceryCategory.proteins }]
      servings := 3 }
    { dish_name := "Ribs", dish_category := DishCategory.main_protein
      adult_servings := 4, child_servings := 0, total_servings := 4 }
    (by decide)
  exact h.1

/-- C1: the code's multiplier table gives main protein 1.0 adult-servings per
person (not the 1.25 the spec and the repository's own tests state), so for
the 'Ribs' scenario with 8 adults and 0 children `calculate_dish_serving_spec`
returns `total_servings = 8.0`, not `10.0`.  This evaluates the code at the
failing input. -/
theorem C1_ribs_total_servings_is_eight_not_ten :
    (calculate_dish_serving_spec "Ribs" DishCategory.main_protein 8 0).total_servings = 8 ∧
      (calculate_dish_serving_spec "Ribs" DishCategory.main_protein 8 0).total_servings ≠ 10 := by
  constructor <;>
    norm_num [calculate_dish_serving_spec, ADULT_SERVINGS_PER_PERSON,
      CHILD_SERVINGS_PER_PERSON, round2, roundHalfEven]

/-- C6: for every dish category and all non-negative guest counts, the spec
returned by `calculate_dish_serving_spec` satisfies
`adult_servings + child_servings == total_servings` within 0.01. -/
theorem C6_adult_plus_child_eq_total_within_tolerance (name : String)
    (cat : DishCategory) (a c : ℕ) :
    |(calculate_dish_serving_spec name cat a c).adult_servings +
        (calculate_dish_serving_spec name cat a c).child_servings -
        (calculate_dish_serving_spec name cat a c).total_servings| ≤ 1/100 := by
  rw [calc_total_eq_sum name cat a c, sub_self, abs_zero]
  norm_num

/-! ## `ShoppingList.build_grouped` partitions `items` (C7) -/

/-- Appending one item to its bucket prepends it (up to permutation) to the
concatenation of all buckets. -/
theorem setdefaultAppend_flatten_perm (g : List (String × List AggregatedIngredient))
    (k : String) (v : AggregatedIngredient) :
    (((setdefaultAppend g k v).map Prod.snd).flatten).Perm
      (v :: (g.map Prod.snd).flatten) := by
  induction g with
  | nil => simp [setdefaultAppend]
  | cons q rest ih =>
    obtain ⟨k', vs⟩ := q
    by_cases hk : k' = k
    · simp only [setdefaultAppend, if_pos hk, List.map_cons, List.flatten_cons]
      rw [List.append_assoc, List.singleton_append]
      exact List.perm_middle
    · simp only [setdefaultAppend, if_neg hk, List.map_cons, List.flatten_cons]
      exact (ih.append_left vs).trans List.perm_middle

/-- The grouping fold of `build_grouped` preserves the multiset of items. -/
theorem groupFold_flatten_perm (items : List AggregatedIngredient) :
    ∀ g : List (String × List AggregatedIngredient),
      (((items.foldl
          (fun g item => setdefaultAppend g item.grocery_category.value item) g).map
            Prod.snd).flatten).Perm
        (items ++ (g.map Prod.snd).flatten) := by
  induction items with
  | nil => intro g; simp
  | cons i rest ih =>
    intro g
    simp only [List.foldl_cons, List.cons_append]
    exact (ih _).trans
      (((setdefaultAppend_flatten_perm g i.grocery_category.value i).append_left
        rest).trans List.perm_middle)

/-- `setdefaultAppend` keeps every bucket's members in the bucket keyed by
their grocery category, provided the appended item matches its key. -/
theorem setdefaultAppend_bucket_sound (k : String) (v : AggregatedIngredient)
    (hv : v.grocery_category.value = k) :
    ∀ g : List (String × List AggregatedIngredient),
      (∀ p ∈ g, ∀ x ∈ p.2, x.grocery_category.value = p.1) →
      ∀ p ∈ setdefaultAppend g k v, ∀ x ∈ p.2, x.grocery_category.value = p.1 := by
  intro g
  induction g with
  | nil =>
    intro _ p hp x hx
    simp only [setdefaultAppend, List.mem_singleton] at hp
    subst hp
    simp only [List.mem_singleton] at hx
    subst hx
    exact hv
  | cons q rest ih =>
    obtain ⟨k', vs⟩ := q
    intro hg p hp x hx
    by_cases hk : k' = k
    · simp only [setdefaultAppend, if_pos hk, List.mem_cons] at hp
      rcases hp with hp | hp
      · subst hp
        simp only [List.mem_append, List.mem_singleton] at hx
        rcases hx with hx | hx
        · exact hg (k', vs) (List.mem_cons_self _ _) x hx
        · subst hx
          exact hv.trans hk.symm
      · exact hg p (List.mem_cons_of_mem _ hp) x hx
    · simp only [setdefaultAppend, if_neg hk, List.mem_cons] at hp
      rcases hp with hp | hp
      · subst hp
        exact hg (k', vs) (List.mem_cons_self _ _) x hx
      · exact ih (fun p hp => hg p (List.mem_cons_of_mem _ hp)) p hp x hx

/-- The keys of `setdefaultAppend`: unchanged if the key is present, the key
appended at the end otherwise. -/
theorem setdefaultAppend_keys (g : List (String × List AggregatedIngredient))
    (k : String) (v : AggregatedIngredient) :
    (setdefaultAppend g k v).map Prod.fst =
      if k ∈ g.map Prod.fst then g.map Prod.fst else g.map Prod.fst ++ [k] := by
  induction g with
  | nil => simp [setdefaultAppend]
  | cons q rest ih =>
    obtain ⟨k', vs⟩ := q
    by_cases hk : k' = k
    · subst hk
      simp [setdefaultAppend]
    · simp only [setdefaultAppend, if_neg hk, List.map_cons, ih]
      by_cases hmem : k ∈ rest.map Prod.fst
      · simp [hmem, List.mem_cons]
      · simp [hmem, List.mem_cons, Ne.symm hk]

/-- `setdefaultAppend` preserves distinctness of bucket keys. -/
theorem setdefaultAppend_keys_nodup (g : List (String × List AggregatedIngredient))
    (k : String) (v : AggregatedIngredient) (h : (g.map Prod.fst).Nodup) :
    ((setdefaultAppend g k v).map Prod.fst).Nodup := by
  rw [setdefaultAppend_keys]
  by_cases hmem : k ∈ g.map Prod.fst
  · simpa [hmem] using h
  · simp only [if_neg hmem]
    exact h.append (List.nodup_singleton k)
      (fun a ha hb => by
        simp only [List.mem_singleton] at hb
        subst hb
        exact hmem ha)

/-- The grouping fold keeps all buckets sound for the category key. -/
theorem groupFold_bucket_sound (items : List AggregatedIngredient) :
    ∀ g : List (String × List AggregatedIngredient),
      (∀ p ∈ g, ∀ x ∈ p.2, x.grocery_category.value = p.1) →
      ∀ p ∈ items.foldl
          (fun g item => setdefaultAppend g item.grocery_category.value item) g,
        ∀ x ∈ p.2, x.grocery_category.value = p.1 := by
  induction items with
  | nil =>
    intro g hg
    simpa using hg
  | cons i rest ih =>
    intro g hg
    simp only [List.foldl_cons]
    exact ih _ (setdefaultAppend_bucket_sound _ _ rfl _ hg)

/-- The grouping fold keeps bucket keys distinct. -/
theorem groupFold_keys_nodup (items : List AggregatedIngredient) :
    ∀ g : List (String × List AggregatedIngredient),
      (g.map Prod.fst).Nodup →
      ((items.foldl
          (fun g item => setdefaultAppend g item.grocery_category.value item) g).map
            Prod.fst).Nodup := by
  induction items with
  | nil =>
    intro g hg
    simpa using hg
  | cons i rest ih =>
    intro g hg
    simp only [List.foldl_cons]
    exact ih _ (setdefaultAppend_keys_nodup _ _ _ hg)

/-- C7: after `build_grouped` the grouped index exactly partitions `items`:
every bucket is keyed by its members' grocery category, the concatenation of
all buckets is a permutation of `items`, and every item lies in exactly one
bucket. -/
theorem C7_build_grouped_partitions_items (sl : ShoppingList) :
    (∀ p ∈ sl.build_grouped.grouped, ∀ x ∈ p.2, x.grocery_category.value = p.1) ∧
      ((sl.build_grouped.grouped.map Prod.snd).flatten).Perm sl.items ∧
      (∀ x ∈ sl.items,
        sl.build_grouped.grouped.countP (fun p => decide (x ∈ p.2)) = 1) := by
  have hsound : ∀ p ∈ sl.build_grouped.grouped, ∀ x ∈ p.2,
      x.grocery_category.value = p.1 :=
    groupFold_bucket_sound sl.items [] (by simp)
  have hperm : ((sl.build_grouped.grouped.map Prod.snd).flatten).Perm sl.items := by
    simpa using groupFold_flatten_perm sl.items []
  have hnodup : (sl.build_grouped.grouped.map Prod.fst).Nodup :=
    groupFold_keys_nodup sl.items [] (by simp)
  refine ⟨hsound, hperm, ?_⟩
  intro x hx
  obtain ⟨vs, hvs, hxvs⟩ := List.mem_flatten.mp (hperm.mem_iff.mpr hx)
  obtain ⟨p, hp, rfl⟩ := List.mem_map.mp hvs
  have hpos : 0 < sl.build_grouped.grouped.countP (fun p => decide (x ∈ p.2)) :=
    List.countP_pos_iff.mpr ⟨p, hp, by simpa using hxvs⟩
  have hle : sl.build_grouped.grouped.countP (fun p => decide (x ∈ p.2)) ≤
      sl.build_grouped.grouped.countP (fun p => p.1 == x.grocery_category.value) := by
    refine List.countP_mono_left fun q hq hpred => ?_
    simp only [decide_eq_true_eq] at hpred
    simpa using (hsound q hq x hpred).symm
  have hkey : sl.build_grouped.grouped.countP
      (fun p => p.1 == x.grocery_category.value) =
      List.count x.grocery_category.value (sl.build_grouped.grouped.map Prod.fst) := by
    rw [List.count_eq_countP, List.countP_map]
    rfl
  have hone : List.count x.grocery_category.value
      (sl.build_grouped.grouped.map Prod.fst) ≤ 1 :=
    List.nodup_iff_count_le_one.mp hnodup _
  omega

/-- Witness for C7 at a concrete shopping list and item. -/
theorem C7_build_grouped_partitions_items_witness :
    (({ name := "pasta", total_quantity := 2, unit := QuantityUnit.lbs
        grocery_category := GroceryCategory.pantry,
        appears_in := ["Carbonara"] } : AggregatedIngredient) ∈
      ({ meal_plan := ["Carbonara"], adult_count := 8, child_count := 0
         total_guests := 8
         items := [{ name := "pasta", total_quantity := 2, unit := QuantityUnit.lbs
                     grocery_category := GroceryCategory.pantry,
                     appears_in := ["Carbonara"] }] } : ShoppingList).items) ∧
      (({ meal_plan := ["Carbonara"], adult_count := 8, child_count := 0
          total_guests := 8
          items := [{ name := "pasta", total_quantity := 2, unit := QuantityUnit.lbs
                      grocery_category := GroceryCategory.pantry,
                      appears_in := ["Carbonara"] }] } : ShoppingList).build_grouped.grouped.countP
        (fun p => decide
          (({ name := "pasta", total_quantity := 2, unit := QuantityUnit.lbs
              grocery_category := GroceryCategory.pantry,
              appears_in := ["Carbonara"] } : AggregatedIngredient) ∈ p.2)) = 1) := by
  refine ⟨by simp, ?_⟩
  exact (C7_build_grouped_partitions_items _).2.2 _ (by simp)

/-! ## Enrichment fan-out (C4) -/

/-- With no recipes in the meal plan, every spec is delegated to the AI. -/
theorem routeSpec_nil (spec : DishServingSpec) : routeSpec [] spec = Sum.inr spec := by
  unfold routeSpec _is_store_bought _recipe_for recipeMapLookup
  simp

/-- `_recipe_for` finds nothing in an empty recipe list. -/
theorem _recipe_for_nil (dish_name : String) : _recipe_for [] dish_name = none := rfl

/-- Keeping the `Except.ok` payloads keeps exactly the successes. -/
theorem length_filterMap_okValue {ε α : Type} (l : List (Except ε α)) :
    (l.filterMap okValue?).length = l.countP exceptIsOk := by
  induction l with
  | nil => rfl
  | cons r rest ih =>
    cases r with
    | ok a => simp [okValue?, exceptIsOk, List.filterMap_cons, List.countP_cons, ih]
    | error e => simp [okValue?, exceptIsOk, List.filterMap_cons, List.countP_cons, ih]

/-- C4: in the enrichment fan-out each per-dish failure is caught
individually and the failed dish is dropped: for a batch of three delegated
dishes (no base recipes, so all three go to the AI) in which exactly one call
fails, `dish_ingredients` has length two.  The step itself is a total
function — no exception escapes the fan-out — so the pipeline always proceeds
to aggregation. -/
theorem C4_one_failure_of_three_yields_two_dishes
    (oracle : DishServingSpec → Option Recipe → List String → Except String DishIngredients)
    (st : AgentState) (s₁ s₂ s₃ : DishServingSpec)
    (hrecipes : st.event_data.meal_plan.recipes = [])
    (hspecs : st.serving_specs = [s₁, s₂, s₃])
    (hone :
      ([oracle s₁ none st.event_data.dietary_restrictions,
        oracle s₂ none st.event_data.dietary_restrictions,
        oracle s₃ none st.event_data.dietary_restrictions].countP
          fun r => !(exceptIsOk r)) = 1) :
    (get_all_dish_ingredients oracle st).dish_ingredients.length = 2 := by
  rcases h₁ : oracle s₁ none st.event_data.dietary_restrictions with e₁ | d₁ <;>
    rcases h₂ : oracle s₂ none st.event_data.dietary_restrictions with e₂ | d₂ <;>
      rcases h₃ : oracle s₃ none st.event_data.dietary_restrictions with e₃ | d₃ <;>
        simp [get_all_dish_ingredients, hrecipes, hspecs, routeSpec_nil, _recipe_for_nil,
          okValue?, exceptIsOk, h₁, h₂, h₃, List.countP_cons] at hone ⊢

/-- Witness for C4: three delegated dishes, the second AI call fails. -/
theorem C4_one_failure_of_three_yields_two_dishes_witness :
    (({ event_data := {}, output_formats := [OutputFormat.in_chat]
        serving_specs :=
          [{ dish_name := "Wine", dish_category := DishCategory.beverage_alcoholic
             adult_servings := 12, child_servings := 0, total_servings := 12 },
           { dish_name := "Soda", dish_category := DishCategory.beverage_nonalcoholic
             adult_servings := 12, child_servings := 8, total_servings := 20 },
           { dish_name := "Punch", dish_category := DishCategory.beverage_nonalcoholic
             adult_servings := 12, child_servings := 8, total_servings := 20 }] } :
        AgentState).event_data.meal_plan.recipes = []) ∧
      (get_all_dish_ingredients
        (fun spec _ _ =>
          if spec.dish_name = "Soda" then Except.error "rate limited"
          else Except.ok { dish_name := spec.dish_name, ingredients := [] })
        { event_data := {}, output_formats := [OutputFormat.in_chat]
          serving_specs :=
            [{ dish_name := "Wine", dish_category := DishCategory.beverage_alcoholic
               adult_servings := 12, child_servings := 0, total_servings := 12 },
             { dish_name := "Soda", dish_category := DishCategory.beverage_nonalcoholic
               adult_servings := 12, child_servings := 8, total_servings := 20 },
             { dish_name := "Punch", dish_category := DishCategory.beverage_nonalcoholic
               adult_servings := 12, child_servings := 8, total_servings := 20 }] }).dish_ingredients.length = 2 := by
  refine ⟨rfl, ?_⟩
  exact C4_one_failure_of_three_yields_two_dishes _ _ _ _ _ rfl rfl (by decide)

/-! ## Chat formatting (C10) -/

/-- C10: `format_chat_output` renders every grouped item with its quantity
rounded up to the nearest whole number (`math.ceil`), joining the built lines
with newlines; with no shopping list present it sets the fixed fallback
string instead of failing. -/
theorem C10_format_chat_output_ceiling_and_fallback (st : AgentState) :
    (st.shopping_list = none →
      (format_chat_output st).formatted_chat_output = some "No shopping list available.") ∧
      ∀ sl, st.shopping_list = some sl →
        (format_chat_output st).formatted_chat_output =
          some (String.intercalate "\n" (chatLines sl)) ∧
        ∀ p ∈ sl.grouped, ∀ item ∈ p.2,
          ("- " ++ item.name ++ ": " ++ toString (Int.ceil item.total_quantity) ++ " " ++
            item.unit.value) ∈ chatLines sl := by
  constructor
  · intro h
    simp [format_chat_output, h]
  · intro sl h
    constructor
    · simp [format_chat_output, h]
    · intro p hp item hitem
      show chatItemLine item ∈ chatLines sl
      unfold chatLines
      refine List.mem_cons_of_mem _ (List.mem_flatten.mpr
        ⟨categoryHeaderLine p.1 :: (p.2.map chatItemLine ++ [""]), ?_, ?_⟩)
      · exact List.mem_map.mpr ⟨p, hp, rfl⟩
      · exact List.mem_cons_of_mem _
          (List.mem_append_left _ (List.mem_map.mpr ⟨item, hitem, rfl⟩))

/-- Witness for C10 at a concrete state with a grouped shopping list, and at
a concrete state with no list. -/
theorem C10_format_chat_output_ceiling_and_fallback_witness :
    ((format_chat_output { event_data := {}, output_formats := [] }).formatted_chat_output =
      some "No shopping list available.") ∧
      ("- olive oil: " ++ toString (Int.ceil ((3 : ℚ))) ++ " " ++ QuantityUnit.cups.value) ∈
        chatLines
          { meal_plan := [], adult_count := 2, child_count := 0, total_guests := 2
            items := [{ name := "olive oil", total_quantity := 3
                        unit := QuantityUnit.cups
                        grocery_category := GroceryCategory.pantry, appears_in := [] }]
            grouped := [("pantry",
              [{ name := "olive oil", total_quantity := 3, unit := QuantityUnit.cups
                 grocery_category := GroceryCategory.pantry, appears_in := [] }])] } := by
  constructor
  · exact (C10_format_chat_output_ceiling_and_fallback
      { event_data := {}, output_formats := [] }).1 rfl
  · exact ((C10_format_chat_output_ceiling_and_fallback
      { event_data := {}, output_formats := []
        shopping_list := some
          { meal_plan := [], adult_count := 2, child_count := 0, total_guests := 2
            items := [{ name := "olive oil", total_quantity := 3
                        unit := QuantityUnit.cups
                        grocery_category := GroceryCategory.pantry, appears_in := [] }]
            grouped := [("pantry",
              [{ name := "olive oil", total_quantity := 3, unit := QuantityUnit.cups
                 grocery_category := GroceryCategory.pantry, appears_in := [] }])] }}).2 _
      rfl).2
      ("pantry",
        [{ name := "olive oil", total_quantity := 3, unit := QuantityUnit.cups
           grocery_category := GroceryCategory.pantry, appears_in := [] }]) (by simp)
      { name := "olive oil", total_quantity := 3, unit := QuantityUnit.cups
        grocery_category := GroceryCategory.pantry, appears_in := [] } (by simp)

/-! ## Corrections (C9) -/

/-- C9 (amended): `apply_corrections` is a no-op on the shopping list — and
independent of the external collaborator — whenever the pending correction
text is `None`, empty or whitespace; with correction text present the list is
replaced wholesale by the collaborator's response and the group index
rebuilt.  In both cases the pending correction text is *retained*, not
cleared: neither `apply_corrections` nor its caller ever resets
`user_corrections`. -/
theorem C9_apply_corrections_noop_replace_retain :
    (∀ (o₁ o₂ : Option ShoppingList → String → Except String ShoppingList)
        (st : AgentState),
      (st.user_corrections = none ∨ ∃ c, st.user_corrections = some c ∧ pyStrip c = "") →
        apply_corrections o₁ st = apply_corrections o₂ st ∧
          apply_corrections o₁ st =
            Except.ok { st with stage := AgentStage.APPLYING_CORRECTIONS } ∧
          ({ st with stage := AgentStage.APPLYING_CORRECTIONS } : AgentState).shopping_list =
            st.shopping_list ∧
          ({ st with stage := AgentStage.APPLYING_CORRECTIONS } : AgentState).user_corrections =
            st.user_corrections) ∧
      ∀ (o : Option ShoppingList → String → Except String ShoppingList)
          (st : AgentState) (c : String) (revised : ShoppingList),
        st.user_corrections = some c → pyStrip c ≠ "" →
        o st.shopping_list c = Except.ok revised →
        apply_corrections o st =
          Except.ok { st with stage := AgentStage.APPLYING_CORRECTIONS
                              shopping_list := some revised.build_grouped } ∧
          ∀ st', apply_corrections o st = Except.ok st' →
            st'.user_corrections = st.user_corrections := by
  constructor
  · intro o₁ o₂ st h
    rcases h with h | ⟨c, hc, hstrip⟩
    · refine ⟨?_, ?_, rfl, rfl⟩ <;> simp [apply_corrections, h]
    · refine ⟨?_, ?_, rfl, rfl⟩ <;> simp [apply_corrections, hc, hstrip]
  · intro o st c revised hc hne hok
    have h1 : apply_corrections o st =
        Except.ok { st with stage := AgentStage.APPLYING_CORRECTIONS
                            shopping_list := some revised.build_grouped } := by
      simp [apply_corrections, hc, hne, hok, Except.map]
    refine ⟨h1, ?_⟩
    intro st' h'
    rw [h1] at h'
    injection h' with h''
    subst h''
    rfl

/-- C9 (counterexample): the pending correction text is *not* cleared once
consumed.  Running the review loop on a concrete run with the correction
"remove the garlic" followed by an approval leaves
`user_corrections = some "remove the garlic"` in the final state. -/
theorem C9_pending_correction_text_not_cleared :
    (LoopExit.state
        (reviewLoop trivialOracles.apply_shopping_list_corrections
          { event_data := {}, output_formats := [OutputFormat.in_chat]
            shopping_list := some { meal_plan := [], adult_count := 0, child_count := 0
                                    total_guests := 0, items := [] } }
          [ReviewMsg.message "remove the garlic", ReviewMsg.approve []]).1).user_corrections =
        some "remove the garlic" ∧
      (LoopExit.state
          (reviewLoop trivialOracles.apply_shopping_list_corrections
            { event_data := {}, output_formats := [OutputFormat.in_chat]
              shopping_list := some { meal_plan := [], adult_count := 0, child_count := 0
                                      total_guests := 0, items := [] } }
            [ReviewMsg.message "remove the garlic", ReviewMsg.approve []]).1).user_corrections ≠
        none := by
  constructor
  · rfl
  · decide

/-- Witness for C9's amended theorem: a blank-corrections no-op that is
oracle-independent, and a consumed correction that replaces the list. -/
theorem C9_apply_corrections_noop_replace_retain_witness :
    (({ event_data := {}, output_formats := [] } : AgentState).user_corrections = none ∧
      apply_corrections trivialOracles.apply_shopping_list_corrections
          { event_data := {}, output_formats := [] } =
        apply_corrections (fun _ _ => Except.error "service down")
          { event_data := {}, output_formats := [] }) ∧
      apply_corrections trivialOracles.apply_shopping_list_corrections
          { event_data := {}, output_formats := [OutputFormat.in_chat]
            shopping_list := some { meal_plan := [], adult_count := 0, child_count := 0
                                    total_guests := 0, items := [] }
            user_corrections := some "remove the garlic" } =
        Except.ok
          { event_data := {}, output_formats := [OutputFormat.in_chat]
            stage := AgentStage.APPLYING_CORRECTIONS
            shopping_list := some
              (ShoppingList.build_grouped
                { meal_plan := [], adult_count := 0, child_count := 0
                  total_guests := 0, items := [] })
            user_corrections := some "remove the garlic" } := by
  refine ⟨⟨rfl, ?_⟩, ?_⟩
  · exact ((C9_apply_corrections_noop_replace_retain.1
      trivialOracles.apply_shopping_list_corrections (fun _ _ => Except.error "service down")
      { event_data := {}, output_formats := [] } (Or.inl rfl)).1)
  · exact (C9_apply_corrections_noop_replace_retain.2
      trivialOracles.apply_shopping_list_corrections
      { event_data := {}, output_formats := [OutputFormat.in_chat]
        shopping_list := some { meal_plan := [], adult_count := 0, child_count := 0
                                total_guests := 0, items := [] }
        user_corrections := some "remove the garlic" }
      "remove the garlic"
      { meal_plan := [], adult_count := 0, child_count := 0, total_guests := 0, items := [] }
      rfl (by decide) rfl).1

/-! ## Delivery fan-out and re-entry (C2, C3) -/

/-- `format_chat_output` never touches the shopping list itself. -/
theorem format_chat_output_shopping_list (st : AgentState) :
    (format_chat_output st).shopping_list = st.shopping_list := by
  cases h : st.shopping_list <;> simp [format_chat_output, h]

/-- `generate_recipes` never touches the shopping list. -/
theorem generate_recipes_shopping_list
    (o : List (String × List RecipeIngredient × ℚ) → Except String (List (String × List String)))
    (st st' : AgentState) (h : generate_recipes o st = Except.ok st') :
    st'.shopping_list = st.shopping_list := by
  unfold generate_recipes at h
  by_cases he :
      (st.dish_ingredients.filter (eligibleDish st.event_data.meal_plan.recipes)).isEmpty
  · simp only [he, if_true] at h
    injection h with h'
    subst h'
    rfl
  · simp only [he, if_false] at h
    cases ho : o ((st.dish_ingredients.filter
        (eligibleDish st.event_data.meal_plan.recipes)).map fun d =>
          (d.dish_name, d.ingredients,
            match d.serving_spec with
            | some sp => sp.total_servings
            | none => 0)) with
    | error e => rw [ho] at h; simp [Except.map] at h
    | ok m =>
      rw [ho] at h
      simp only [Except.map] at h
      injection h with h'
      subst h'
      rfl

/-- `create_google_tasks` never touches the shopping list. -/
theorem create_google_tasks_shopping_list
    (ts : Option (Option ShoppingList → String → Except String Unit)) (today : String)
    (st st' : AgentState) (h : create_google_tasks ts today st = Except.ok st') :
    st'.shopping_list = st.shopping_list := by
  unfold create_google_tasks at h
  cases ts with
  | none =>
    injection h with h'
    subst h'
    rfl
  | some svc =>
    dsimp only at h
    cases hc : svc st.shopping_list
        ("Dinner Party Shopping - " ++ formatEventDateMDY (st.event_data.event_date.getD today)) with
    | error e => rw [hc] at h; simp [Except.map] at h
    | ok u =>
      rw [hc] at h
      simp only [Except.map] at h
      injection h with h'
      subst h'
      rfl

/-- The settle-and-merge fold preserves any field its tasks preserve; stated
for the shopping list. -/
theorem runDeliveryTasks_shopping_list (tasks : List (AgentState → Except String AgentState)) :
    (∀ t ∈ tasks, ∀ s s', t s = Except.ok s' → s'.shopping_list = s.shopping_list) →
    ∀ st, (runDeliveryTasks tasks st).shopping_list = st.shopping_list := by
  induction tasks with
  | nil => intro _ st; rfl
  | cons t rest ih =>
    intro hpres st
    simp only [runDeliveryTasks, List.foldl_cons] at ih ⊢
    cases h : t st with
    | error e =>
      exact ih (fun t' ht' => hpres t' (List.mem_cons_of_mem _ ht')) st
    | ok s2 =>
      rw [ih (fun t' ht' => hpres t' (List.mem_cons_of_mem _ ht')) s2]
      exact hpres t (List.mem_cons_self _ _) st s2 h

/-- A successful delivery phase leaves the shopping list unchanged. -/
theorem deliveryPhase_shopping_list (oracles : AIOracles)
    (ts : Option (Option ShoppingList → String → Except String Unit)) (today : String)
    (formats : List OutputFormat) (st st' : AgentState)
    (h : deliveryPhase oracles ts today formats st = Except.ok st') :
    st'.shopping_list = st.shopping_list := by
  unfold deliveryPhase at h
  by_cases hs : formats.contains OutputFormat.google_sheet = true
  · have hs' : OutputFormat.google_sheet ∈ formats := by simpa using hs
    simp [hs'] at h
  · rw [if_neg (by simpa using hs)] at h
    injection h with h'
    subst h'
    apply runDeliveryTasks_shopping_list
    intro t ht s s' hts
    rcases List.mem_append.mp ht with ht | ht
    · rcases List.mem_cons.mp ht with rfl | ht
      · injection hts with h''
        subst h''
        exact format_chat_output_shopping_list s
      · rcases List.mem_cons.mp ht with rfl | ht
        · exact generate_recipes_shopping_list _ s s' hts
        · exact absurd ht (List.not_mem_nil t)
    · by_cases hgt : formats.contains OutputFormat.google_tasks = true
      · rw [if_pos hgt] at ht
        have ht' := List.mem_singleton.mp ht
        subst ht'
        exact create_google_tasks_shopping_list ts today s s' hts
      · rw [if_neg hgt] at ht
        exact absurd ht (List.not_mem_nil t)

/-- C2: invoking `run_agent` with a prior state whose shopping list is
non-empty skips every stage up to and including the review cycle: the first
published notification is already the `DELIVERING` progress message, no
`CALCULATING_QUANTITIES` / `GETTING_INGREDIENTS` / `AGGREGATING` progress and
no review notification is ever published, and the run proceeds with the
cached list. -/
theorem C2_cached_list_skips_to_delivery (oracles : AIOracles)
    (event_data : EventPlanningData) (output_formats : List OutputFormat)
    (tasks_service : Option (Option ShoppingList → String → Except String Unit))
    (today : String) (script : List ReviewMsg) (es : AgentState) (sl : ShoppingList)
    (hsl : es.shopping_list = some sl) (hne : sl.items ≠ []) :
    ∃ final trace,
      run_agent oracles event_data output_formats (some es) tasks_service today script =
        some (final, trace) ∧
      trace.head? = some (Msg.progress AgentStage.DELIVERING) ∧
      (∀ m ∈ trace,
        m ≠ Msg.progress AgentStage.CALCULATING_QUANTITIES ∧
        m ≠ Msg.progress AgentStage.GETTING_INGREDIENTS ∧
        m ≠ Msg.progress AgentStage.AGGREGATING ∧
        m ≠ Msg.review) ∧
      final.shopping_list = some sl := by
  have hskip : es.shopping_list.isSome = true := by rw [hsl]; rfl
  simp only [run_agent, hskip, if_true, deliverFinish, List.nil_append]
  cases hd : deliveryPhase oracles tasks_service today output_formats
      { es with output_formats := output_formats } with
  | error e =>
    refine ⟨_, _, rfl, rfl, ?_, ?_⟩
    · intro m hm
      rcases List.mem_cons.mp hm with rfl | hm
      · exact ⟨by decide, by decide, by decide, by decide⟩
      · rcases List.mem_cons.mp hm with rfl | hm
        · exact ⟨by decide, by decide, by decide, by decide⟩
        · exact absurd hm (List.not_mem_nil m)
    · exact hsl
  | ok st2 =>
    refine ⟨_, _, rfl, rfl, ?_, ?_⟩
    · intro m hm
      rcases List.mem_cons.mp hm with rfl | hm
      · exact ⟨by decide, by decide, by decide, by decide⟩
      · rcases List.mem_cons.mp hm with rfl | hm
        · exact ⟨by decide, by decide, by decide, by decide⟩
        · exact absurd hm (List.not_mem_nil m)
    · rw [show ({ st2 with stage := AgentStage.COMPLETE } : AgentState).shopping_list =
          st2.shopping_list from rfl]
      rw [deliveryPhase_shopping_list oracles tasks_service today output_formats _ st2 hd]
      exact hsl

/-- Witness for C2 at a concrete cached run. -/
theorem C2_cached_list_skips_to_delivery_witness :
    ({ event_data := {}, output_formats := [OutputFormat.in_chat]
       shopping_list := some
         { meal_plan := ["Ribs"], adult_count := 8, child_count := 0, total_guests := 8
           items := [{ name := "pork ribs", total_quantity := 6, unit := QuantityUnit.lbs
                       grocery_category := GroceryCategory.proteins
                       appears_in := ["Ribs"] }] } } : AgentState).shopping_list =
      some
        { meal_plan := ["Ribs"], adult_count := 8, child_count := 0, total_guests := 8
          items := [{ name := "pork ribs", total_quantity := 6, unit := QuantityUnit.lbs
                      grocery_category := GroceryCategory.proteins
                      appears_in := ["Ribs"] }] } ∧
      ∃ final trace,
        run_agent trivialOracles {} [OutputFormat.in_chat]
            (some { event_data := {}, output_formats := [OutputFormat.in_chat]
                    shopping_list := some
                      { meal_plan := ["Ribs"], adult_count := 8, child_count := 0
                        total_guests := 8
                        items := [{ name := "pork ribs", total_quantity := 6
                                    unit := QuantityUnit.lbs
                                    grocery_category := GroceryCategory.proteins
                                    appears_in := ["Ribs"] }] } })
            none "2026-10-12" [] = some (final, trace) ∧
        trace.head? = some (Msg.progress AgentStage.DELIVERING) ∧
        (∀ m ∈ trace,
          m ≠ Msg.progress AgentStage.CALCULATING_QUANTITIES ∧
          m ≠ Msg.progress AgentStage.GETTING_INGREDIENTS ∧
          m ≠ Msg.progress AgentStage.AGGREGATING ∧
          m ≠ Msg.review) ∧
        final.shopping_list =
          some
            { meal_plan := ["Ribs"], adult_count := 8, child_count := 0, total_guests := 8
              items := [{ name := "pork ribs", total_quantity := 6, unit := QuantityUnit.lbs
                          grocery_category := GroceryCategory.proteins
                          appears_in := ["Ribs"] }] } := by
  refine ⟨rfl, ?_⟩
  exact C2_cached_list_skips_to_delivery trivialOracles {} [OutputFormat.in_chat] none
    "2026-10-12" [] _ _ rfl (by simp)

/-- C3: evaluating the code at a run that requests a Google Sheet.  The
runner dispatches `create_google_sheet(state, sheets_service)` while
`steps.create_google_sheet` accepts one parameter, so the dispatch itself
raises outside the fan-out isolation: the run ends in `ERROR` with no
formatted chat output, instead of the claimed `COMPLETE` with formatted text.
The same run without the sheet channel completes normally. -/
theorem C3_sheet_request_escapes_isolation :
    ((run_agent trivialOracles {} [OutputFormat.in_chat, OutputFormat.google_sheet]
        (some { event_data := {}, output_formats := [OutputFormat.in_chat]
                shopping_list := some { meal_plan := [], adult_count := 0, child_count := 0
                                        total_guests := 0, items := [] } })
        none "2026-10-12" []).map
        (fun r => (r.1.stage, r.1.formatted_chat_output, r.2)) =
      some (AgentStage.ERROR, (none : Option String),
        [Msg.progress AgentStage.DELIVERING, Msg.failure])) ∧
      ((run_agent trivialOracles {} [OutputFormat.in_chat]
          (some { event_data := {}, output_formats := [OutputFormat.in_chat]
                  shopping_list := some { meal_plan := [], adult_count := 0, child_count := 0
                                          total_guests := 0, items := [] } })
          none "2026-10-12" []).map
          (fun r => (r.1.stage, r.1.formatted_chat_output.isSome, r.2)) =
        some (AgentStage.COMPLETE, true,
          [Msg.progress AgentStage.DELIVERING, Msg.complete])) := by
  constructor
  · rfl
  · rfl

/-! ## Review loop termination (C8) -/

/-- An `Except` that satisfies `exceptIsOk` is an `ok`. -/
theorem exists_ok_of_exceptIsOk {ε α : Type} {r : Except ε α}
    (h : exceptIsOk r = true) : ∃ a, r = Except.ok a := by
  cases r with
  | error e => simp [exceptIsOk] at h
  | ok a => exact ⟨a, rfl⟩

/-- One correction round: a non-blank message whose `apply_corrections` call
succeeds publishes one review and one progress notification and recurses. -/
theorem reviewLoop_message_step
    (o : Option ShoppingList → String → Except String ShoppingList)
    (st : AgentState) (t : String) (rest : List ReviewMsg)
    (htrim : pyStrip t = t) (hne : t ≠ "")
    (hok : ∀ sl c, exceptIsOk (o sl c) = true) :
    ∃ st2,
      reviewLoop o st (ReviewMsg.message t :: rest) =
        ((reviewLoop o st2 rest).1,
          Msg.review :: Msg.progress AgentStage.APPLYING_CORRECTIONS ::
            (reviewLoop o st2 rest).2) := by
  obtain ⟨revised, hrev⟩ := exists_ok_of_exceptIsOk
    (hok ({ st with stage := AgentStage.AWAITING_REVIEW, user_corrections := some t } :
      AgentState).shopping_list t)
  refine ⟨{ st with
            stage := AgentStage.APPLYING_CORRECTIONS
            user_corrections := some t
            shopping_list := some revised.build_grouped }, ?_⟩
  simp only [reviewLoop, htrim]
  rw [if_neg hne]
  simp only [apply_corrections, htrim]
  rw [if_neg hne]
  rw [hrev]
  simp [Except.map]

/-- N non-blank correction rounds followed by an approval publish exactly
N+1 review notifications and end approved. -/
theorem reviewLoop_corrections_then_approve
    (o : Option ShoppingList → String → Except String ShoppingList)
    (hok : ∀ sl c, exceptIsOk (o sl c) = true) :
    ∀ (texts : List String) (st : AgentState) (excluded : List String),
      (∀ t ∈ texts, pyStrip t = t ∧ t ≠ "") →
      ((reviewLoop o st
          (texts.map ReviewMsg.message ++ [ReviewMsg.approve excluded])).2.countP
            isReviewNotification = texts.length + 1 ∧
        ∃ sta,
          (reviewLoop o st
            (texts.map ReviewMsg.message ++ [ReviewMsg.approve excluded])).1 =
            LoopExit.approved sta) := by
  intro texts
  induction texts with
  | nil =>
    intro st excluded _
    exact ⟨rfl, ⟨_, rfl⟩⟩
  | cons t rest ih =>
    intro st excluded hts
    obtain ⟨htrim, hne⟩ := hts t (List.mem_cons_self _ _)
    obtain ⟨st2, hstep⟩ := reviewLoop_message_step o st t
      (rest.map ReviewMsg.message ++ [ReviewMsg.approve excluded]) htrim hne hok
    have hrest := ih st2 excluded (fun t' ht' => hts t' (List.mem_cons_of_mem _ ht'))
    rw [List.map_cons, List.cons_append, hstep]
    constructor
    · simp only [List.countP_cons, isReviewNotification]
      rw [hrest.1]
      simp [List.length_cons]
    · exact hrest.2

/-- With no approval (and no blank message) in the script, the loop never
exits approved: it is still blocked awaiting input, or it aborted through the
top-level failure boundary. -/
theorem reviewLoop_no_approval
    (o : Option ShoppingList → String → Except String ShoppingList) :
    ∀ (script : List ReviewMsg) (st : AgentState),
      (∀ ex, ReviewMsg.approve ex ∉ script) →
      (∀ d, ReviewMsg.message d ∈ script → pyStrip d ≠ "") →
      ∀ sta, (reviewLoop o st script).1 ≠ LoopExit.approved sta := by
  intro script
  induction script with
  | nil =>
    intro st _ _ sta
    simp [reviewLoop]
  | cons m rest ih =>
    intro st hnap hmsg sta
    cases m with
    | approve ex => exact absurd (List.mem_cons_self _ _) (hnap ex)
    | message d =>
      have hd : pyStrip d ≠ "" := hmsg d (List.mem_cons_self _ _)
      simp only [reviewLoop]
      rw [if_neg hd]
      cases h : apply_corrections o
          { st with stage := AgentStage.AWAITING_REVIEW,
                    user_corrections := some (pyStrip d) } with
      | error e => simp
      | ok st2 =>
        simp only []
        exact ih st2 (fun ex hex => hnap ex (List.mem_cons_of_mem _ hex))
          (fun d' hd' => hmsg d' (List.mem_cons_of_mem _ hd')) sta

/-- C8: the review loop ends after exactly one iteration (one review
notification) when the first response is an approval — explicit, or
empty/blank content — and after exactly N+1 iterations when N non-blank
correction rounds (each applied successfully) precede an approval; it has no
iteration cap and exits only on approval: a script with no approval never
reaches the approved exit. -/
theorem C8_review_loop_iterations
    (o : Option ShoppingList → String → Except String ShoppingList) (st : AgentState) :
    (∀ excluded rest,
      (reviewLoop o st (ReviewMsg.approve excluded :: rest)).2.countP
          isReviewNotification = 1 ∧
        ∃ sta, (reviewLoop o st (ReviewMsg.approve excluded :: rest)).1 =
          LoopExit.approved sta) ∧
      (∀ data rest, pyStrip data = "" →
        (reviewLoop o st (ReviewMsg.message data :: rest)).2.countP
            isReviewNotification = 1 ∧
          ∃ sta, (reviewLoop o st (ReviewMsg.message data :: rest)).1 =
            LoopExit.approved sta) ∧
      (∀ (texts : List String) (excluded : List String),
        (∀ t ∈ texts, pyStrip t = t ∧ t ≠ "") →
        (∀ sl c, exceptIsOk (o sl c) = true) →
        (reviewLoop o st
            (texts.map ReviewMsg.message ++ [ReviewMsg.approve excluded])).2.countP
              isReviewNotification = texts.length + 1 ∧
          ∃ sta,
            (reviewLoop o st
              (texts.map ReviewMsg.message ++ [ReviewMsg.approve excluded])).1 =
              LoopExit.approved sta) ∧
      ∀ (script : List ReviewMsg),
        (∀ ex, ReviewMsg.approve ex ∉ script) →
        (∀ d, ReviewMsg.message d ∈ script → pyStrip d ≠ "") →
        ∀ sta, (reviewLoop o st script).1 ≠ LoopExit.approved sta := by
  refine ⟨?_, ?_, ?_, ?_⟩
  · intro excluded rest
    exact ⟨rfl, ⟨_, rfl⟩⟩
  · intro data rest h
    constructor
    · simp [reviewLoop, h, isReviewNotification]
    · exact ⟨{ st with stage := AgentStage.AWAITING_REVIEW }, by simp [reviewLoop, h]⟩
  · intro texts excluded hts hok
    exact reviewLoop_corrections_then_approve o hok texts st excluded hts
  · intro script hnap hmsg
    exact reviewLoop_no_approval o script st hnap hmsg

/-- Witness for C8: a first-response approval takes one iteration, one
correction round before approval takes two, and a correction-only script
never reaches the approved exit. -/
theorem C8_review_loop_iterations_witness :
    ((reviewLoop
        (fun _ _ => Except.ok { meal_plan := [], adult_count := 0, child_count := 0
                                total_guests := 0, items := [] })
        { event_data := {}, output_formats := [] }
        [ReviewMsg.approve []]).2.countP isReviewNotification = 1) ∧
      (pyStrip "remove the garlic" = "remove the garlic" ∧ "remove the garlic" ≠ "") ∧
      ((reviewLoop
          (fun _ _ => Except.ok { meal_plan := [], adult_count := 0, child_count := 0
                                  total_guests := 0, items := [] })
          { event_data := {}, output_formats := [] }
          ([ReviewMsg.message "remove the garlic"].map id ++
            [ReviewMsg.approve []])).2.countP isReviewNotification = 2) ∧
      ∀ sta,
        (reviewLoop
            (fun _ _ => Except.ok { meal_plan := [], adult_count := 0, child_count := 0
                                    total_guests := 0, items := [] })
            { event_data := {}, output_formats := [] }
            [ReviewMsg.message "more pasta"]).1 ≠ LoopExit.approved sta := by
  refine ⟨?_, ⟨by decide, by decide⟩, ?_, ?_⟩
  · exact ((C8_review_loop_iterations
      (fun _ _ => Except.ok { meal_plan := [], adult_count := 0, child_count := 0
                              total_guests := 0, items := [] })
      { event_data := {}, output_formats := [] }).1 [] []).1
  · have h := ((C8_review_loop_iterations
      (fun _ _ => Except.ok { meal_plan := [], adult_count := 0, child_count := 0
                              total_guests := 0, items := [] })
      { event_data := {}, output_formats := [] }).2.2.1 ["remove the garlic"] []
      (by intro t ht
          simp only [List.mem_singleton] at ht
          subst ht
          exact ⟨by decide, by decide⟩)
      (fun _ _ => rfl)).1
    simpa using h
  · exact (C8_review_loop_iterations
      (fun _ _ => Except.ok { meal_plan := [], adult_count := 0, child_count := 0
                              total_guests := 0, items := [] })
      { event_data := {}, output_formats := [] }).2.2.2 [ReviewMsg.message "more pasta"]
      (by intro ex hex
          simp at hex)
      (by intro d hd
          simp only [List.mem_singleton, ReviewMsg.message.injEq] at hd
          subst hd
          decide)

end Hosting





